import Mathlib

/-!
Verification of the `lifetime` package (Go): a coordinator that supervises the
startup and shutdown of registered services.

The embedding models the concurrent program as a small-step transition system.
Each goroutine of the source becomes a component of an explicit global state,
and every atomic action of the source (a channel rendezvous, a `select` branch,
a `WaitGroup` operation, a call to `cancelFunc`, `os.Exit`, ...) becomes one
constructor of the `Step` relation.  Unbuffered-channel sends are modelled as a
blocked "sending" component state plus a rendezvous step paired with the
receiver.  Go's `select` nondeterminism is modelled by both branch steps being
enabled whenever their guards hold.

Source mapped here:
- `Lifetime` (`New`, `Init`, `Shutdown`, `Wait`, `Start`, `start`,
  `handleShutdownSignals`, `handleErrors`) from the main file;
- `httpService.Start` / `grpcService.Start` as pure error-translation
  functions over the outcome of the wrapped server call.
-/

namespace Lifetime

/-- Values carried on the error channel `errCh`.  A service startup failure
carries the failing service's index and an abstract error code; the two
sentinel errors mirror `ErrShutdownSignalReceived` and
`ErrImmediateShutdownSignalReceived`.  Service error codes are kept distinct
from the sentinels, as in the source where a service would have to return the
package's own exported sentinel value for them to compare identical. -/
inductive Err where
  | startupFailure (sid : Nat) (code : Nat)
  | shutdownSignalReceived
  | immediateShutdownSignalReceived
deriving DecidableEq

/-- OS termination signals subscribed to in `handleShutdownSignals`:
`signal.Notify(signals, syscall.SIGINT, syscall.SIGTERM, syscall.SIGKILL)`. -/
inductive Sig where
  | sigint
  | sigterm
  | sigkill
deriving DecidableEq

/-- State of the inner goroutine of `Lifetime.start` that runs `svc.Start()`:
`running` while `svc.Start()` is in flight; `sendingErr c` after `Start`
returned a non-nil error `c` and the goroutine is blocked on
`startErrs <- err` (an unbuffered channel); `done` once the goroutine has
finished (its deferred `startWg.Done()` has run). -/
inductive GoState where
  | running
  | sendingErr (code : Nat)
  | done
deriving DecidableEq

/-- Whether `svc.Start()` has finished and the start goroutine has run its
deferred `startWg.Done()`. -/
def GoState.finished : GoState → Bool
  | .done => true
  | _ => false

/-- Whether the start goroutine is blocked sending a startup error. -/
def GoState.isSendingErr : GoState → Bool
  | .sendingErr _ => true
  | _ => false

/-- State of the supervisory goroutine `Lifetime.start` for one service:
`selecting` while blocked in the `select`; `sendingErrCh c` after the
`startErrs` branch fired and the goroutine is blocked on
`lifetime.errCh <- startErr`; `stopping` while `svc.Stop()` runs;
`waitingStart` while blocked in `startWg.Wait()`; `exited` after the deferred
`lifetime.serviceWg.Done()` ran and the goroutine returned. -/
inductive SupState where
  | selecting
  | sendingErrCh (code : Nat)
  | stopping
  | waitingStart
  | exited
deriving DecidableEq

/-- Whether the supervisory goroutine is blocked sending on `errCh`. -/
def SupState.isSendingErrCh : SupState → Bool
  | .sendingErrCh _ => true
  | _ => false

/-- State of the `handleErrors` goroutine: `waiting` at `<-lifetime.errCh`;
`handling e` between receiving `e` and finishing the loop body; `returned`
after taking the channel-closed branch and returning. -/
inductive DispState where
  | waiting
  | handling (e : Err)
  | returned
deriving DecidableEq

/-- State of the `handleShutdownSignals` goroutine: `listening` at
`<-signals`; `sending e` while blocked on `lifetime.errCh <- e`. -/
inductive ListenerState where
  | listening
  | sending (e : Err)
deriving DecidableEq

/-- Pointwise update of a service-indexed map. -/
def upd {α : Type} (f : Nat → α) (i : Nat) (v : α) : Nat → α :=
  fun j => if j = i then v else f j

theorem upd_self {α : Type} (f : Nat → α) (i : Nat) (v : α) : upd f i v i = v := by
  simp [upd]

theorem upd_ne {α : Type} (f : Nat → α) (i j : Nat) (v : α) (h : j ≠ i) :
    upd f i v j = f j := by
  simp [upd, h]

/-- Global state of one `Lifetime` instance together with the goroutines it
spawned.  Per-service maps are indexed by `0, ..., nServices - 1`; the claims
are about a fixed population of services registered via `Lifetime.Start`
(each registration did `serviceWg.Add(1)` and spawned a supervisory task).

`startErrored i` is a history (ghost) flag recording that service `i`'s
`Start` returned a non-nil error; `stopCount i` counts invocations of
`svc.Stop()`; `forwarded i` records the startup error of `i` once the
dispatcher has accepted it from `errCh`; `wgCount` is the `serviceWg`
counter; `cancelled` says the context returned by `context.WithCancel` has
been cancelled (its `Done` channel is closed); `exitCode` is set once
`os.Exit` has run, after which the whole process is gone. -/
structure LTState where
  nServices : Nat
  go : Nat → GoState
  sup : Nat → SupState
  startWgDone : Nat → Bool
  startErrored : Nat → Bool
  stopCount : Nat → Nat
  forwarded : Nat → Option Nat
  wgCount : Nat
  cancelled : Bool
  disp : DispState
  listener : ListenerState
  sigCount : Nat
  errChClosed : Bool
  exitCode : Option Nat

/-- Initial state after `New(ctx).Init()` and `n` calls to `Lifetime.Start`:
every service's start goroutine is running, every supervisory task is in its
`select`, the `serviceWg` counter is `n`, the dispatcher waits on `errCh` and
the signal listener waits on `signals`. -/
def initState (n : Nat) : LTState where
  nServices := n
  go := fun _ => .running
  sup := fun _ => .selecting
  startWgDone := fun _ => false
  startErrored := fun _ => false
  stopCount := fun _ => 0
  forwarded := fun _ => none
  wgCount := n
  cancelled := false
  disp := .waiting
  listener := .listening
  sigCount := 0
  errChClosed := false
  exitCode := none

/-- One iteration of the loop body in `handleShutdownSignals`, given the
current value of `count` and the received signal: `count++` followed by
`if count > 1 || sig == syscall.SIGKILL` choosing the immediate sentinel,
else the graceful sentinel.  Returns the new count and the emitted error. -/
def listenerStep (count : Nat) (sig : Sig) : Nat × Err :=
  (count + 1,
    if count + 1 > 1 ∨ sig = Sig.sigkill then Err.immediateShutdownSignalReceived
    else Err.shutdownSignalReceived)

/-- The whole run of the `handleShutdownSignals` loop over a finite sequence
of received signals, starting from a given `count`; yields, per signal, the
value of `count` after the increment and the emitted error event. -/
def listenerRun (count : Nat) : List Sig → List (Nat × Err)
  | [] => []
  | sig :: rest =>
    listenerStep count sig :: listenerRun (listenerStep count sig).1 rest

/-- Small-step transition relation of the whole program.  Every constructor is
one atomic action of the source.  All actions require `exitCode = none`:
after `os.Exit` nothing runs.  Two deferred bookkeeping actions are folded
into the step that enables them, which can only make the counters reach zero
earlier than in the source (so safety statements about `wgCount = 0` are
conservative): the start goroutine's deferred `startWg.Done()` runs in the
same step as the action after which nothing can interleave observably, and a
supervisory task's deferred `serviceWg.Done()` runs in the same step as its
last action. -/
inductive Step : LTState → LTState → Prop where
  /-- `svc.Start()` returns nil; the goroutine skips the send (err == nil)
  and its deferred `startWg.Done()` runs. -/
  | startRetNil (s : LTState) (i : Nat)
      (h1 : i < s.nServices) (h2 : s.go i = .running) (h3 : s.exitCode = none) :
      Step s { s with go := upd s.go i .done, startWgDone := upd s.startWgDone i true }
  /-- `svc.Start()` returns a non-nil error `c`; the goroutine blocks on
  `startErrs <- err`. -/
  | startRetErr (s : LTState) (i c : Nat)
      (h1 : i < s.nServices) (h2 : s.go i = .running) (h3 : s.exitCode = none) :
      Step s { s with go := upd s.go i (.sendingErr c), startErrored := upd s.startErrored i true }
  /-- The `select` takes the `startErr := <-startErrs` branch: rendezvous with
  the blocked start goroutine, whose deferred `startWg.Done()` then runs; the
  supervisory task proceeds to `lifetime.errCh <- startErr` and blocks. -/
  | supRecvStartErr (s : LTState) (i c : Nat)
      (h1 : i < s.nServices) (h2 : s.sup i = .selecting)
      (h3 : s.go i = .sendingErr c) (h4 : s.exitCode = none) :
      Step s { s with sup := upd s.sup i (.sendingErrCh c), go := upd s.go i .done,
                      startWgDone := upd s.startWgDone i true }
  /-- The `select` takes the `<-lifetime.ctx.Done()` branch (enabled exactly
  when the context is cancelled, and also when a startup error is pending —
  Go's `select` chooses among ready cases nondeterministically); `svc.Stop()`
  is invoked. -/
  | supSelectCancel (s : LTState) (i : Nat)
      (h1 : i < s.nServices) (h2 : s.sup i = .selecting)
      (h3 : s.cancelled = true) (h4 : s.exitCode = none) :
      Step s { s with sup := upd s.sup i .stopping,
                      stopCount := upd s.stopCount i (s.stopCount i + 1) }
  /-- `svc.Stop()` returns; the supervisory task proceeds to `startWg.Wait()`. -/
  | stopReturns (s : LTState) (i : Nat)
      (h1 : i < s.nServices) (h2 : s.sup i = .stopping) (h3 : s.exitCode = none) :
      Step s { s with sup := upd s.sup i .waitingStart }
  /-- `startWg.Wait()` returns (the start goroutine has fully finished); the
  deferred `lifetime.serviceWg.Done()` runs and the supervisory task returns. -/
  | supWaitStartRet (s : LTState) (i : Nat)
      (h1 : i < s.nServices) (h2 : s.sup i = .waitingStart)
      (h3 : s.startWgDone i = true) (h4 : s.exitCode = none) :
      Step s { s with sup := upd s.sup i .exited, wgCount := s.wgCount - 1 }
  /-- The dispatcher's `<-lifetime.errCh` rendezvouses with a supervisory task
  blocked on `lifetime.errCh <- startErr`; the sender's deferred
  `serviceWg.Done()` runs and it returns, while the dispatcher starts
  handling the received startup failure. -/
  | dispRecvSup (s : LTState) (i c : Nat)
      (h1 : i < s.nServices) (h2 : s.sup i = .sendingErrCh c)
      (h3 : s.disp = .waiting) (h4 : s.exitCode = none) :
      Step s { s with sup := upd s.sup i .exited, wgCount := s.wgCount - 1,
                      forwarded := upd s.forwarded i (some c),
                      disp := .handling (.startupFailure i c) }
  /-- The dispatcher's `<-lifetime.errCh` rendezvouses with the signal
  listener blocked on `lifetime.errCh <- ...`; the listener loops back to
  `<-signals`. -/
  | dispRecvListener (s : LTState) (e : Err)
      (h1 : s.disp = .waiting) (h2 : s.listener = .sending e)
      (h3 : s.exitCode = none) :
      Step s { s with disp := .handling e, listener := .listening }
  /-- `err == ErrImmediateShutdownSignalReceived`: the dispatcher calls
  `os.Exit(1)`, terminating the process. -/
  | dispHandleImm (s : LTState)
      (h1 : s.disp = .handling .immediateShutdownSignalReceived)
      (h2 : s.exitCode = none) :
      Step s { s with exitCode := some 1 }
  /-- Any other received error: the dispatcher logs it and calls
  `lifetime.Shutdown()`, i.e. `cancelFunc()`, then loops back to the receive. -/
  | dispHandleOther (s : LTState) (e : Err)
      (h1 : s.disp = .handling e) (h2 : e ≠ .immediateShutdownSignalReceived)
      (h3 : s.exitCode = none) :
      Step s { s with cancelled := true, disp := .waiting }
  /-- The receive `err, ok := <-lifetime.errCh` observes the channel closed
  (`ok == false`): the dispatcher calls `cancelFunc()` and returns. -/
  | dispRecvClosed (s : LTState)
      (h1 : s.disp = .waiting) (h2 : s.errChClosed = true)
      (h3 : s.exitCode = none) :
      Step s { s with cancelled := true, disp := .returned }
  /-- A caller invokes `Lifetime.Shutdown()`, i.e. `cancelFunc()`. -/
  | shutdownCall (s : LTState) (h1 : s.exitCode = none) :
      Step s { s with cancelled := true }
  /-- The listener receives a signal at `sig := <-signals`, increments
  `count`, chooses the sentinel per `listenerStep`, and blocks sending it on
  `lifetime.errCh`. -/
  | signalArrive (s : LTState) (sig : Sig)
      (h1 : s.listener = .listening) (h2 : s.exitCode = none) :
      Step s { s with sigCount := (listenerStep s.sigCount sig).1,
                      listener := .sending (listenerStep s.sigCount sig).2 }
  /-- Process-level teardown closes `errCh` (nothing inside the package does
  this; it is the environment action that makes the dispatcher's
  channel-closed branch reachable). -/
  | closeErrCh (s : LTState) (h1 : s.exitCode = none) :
      Step s { s with errChClosed := true }

/-- Reachability from the freshly initialised coordinator with `n` registered
services. -/
def Reachable (n : Nat) (s : LTState) : Prop :=
  Relation.ReflTransGen Step (initState n) s

/-- `Lifetime.Wait` (`serviceWg.Wait()`) has returned exactly when the
`serviceWg` counter is zero. -/
def waitReturned (s : LTState) : Prop :=
  s.wgCount = 0

/-- The effect of one call to `Lifetime.Shutdown` (`cancelFunc()`) on the
state: the cancellation token becomes (or stays) triggered. -/
def applyShutdown (s : LTState) : LTState :=
  { s with cancelled := true }

end Lifetime

namespace Adapters

/-- Outcome of `server.ListenAndServe()` in the HTTP adapter: `none` for a
nil error, `serverClosed` for `http.ErrServerClosed`, `other c` for any
other error. -/
inductive HTTPErr where
  | serverClosed
  | other (code : Nat)
deriving DecidableEq

/-- `httpService.Start`: returns nil when `ListenAndServe` returned nil or
`http.ErrServerClosed` (the error produced by our own `Stop` calling
`server.Close()`), and the error itself otherwise. -/
def httpServiceStart (serveResult : Option HTTPErr) : Option HTTPErr :=
  match serveResult with
  | none => none
  | some .serverClosed => none
  | some e => some e

/-- Outcome of `server.Serve(lis)` in the gRPC adapter: `none` for a nil
error, `serverStopped` for `grpc.ErrServerStopped`, `other c` for any other
error; `listenFailed c` is the wrapped error built when `net.Listen` fails. -/
inductive GRPCErr where
  | serverStopped
  | listenFailed (code : Nat)
  | other (code : Nat)
deriving DecidableEq

/-- `grpcService.Start`: if `net.Listen` fails, returns the wrapped listen
error; otherwise returns nil when `Serve` returned nil or
`grpc.ErrServerStopped`, and the error itself otherwise. -/
def grpcServiceStart (listenResult : Option Nat) (serveResult : Option GRPCErr) :
    Option GRPCErr :=
  match listenResult with
  | some c => some (.listenFailed c)
  | none =>
    match serveResult with
    | none => none
    | some .serverStopped => none
    | some e => some e

end Adapters

namespace Lifetime

/-- Indices of services whose supervisory task has not yet exited; the
`serviceWg` counter tracks the size of this set. -/
def nonExited (s : LTState) : Finset Nat :=
  (Finset.range s.nServices).filter (fun i => s.sup i ≠ SupState.exited)

/-- Invariant tying together the components of one service's lifecycle:
the `startWg` counter mirrors the start goroutine's completion; a pending or
consumed startup error implies `Start` returned non-nil; each supervisory
state pins down the stop count, the forwarded error and (where `Stop` has
been invoked) the cancellation flag; an exited supervisory task finished by
exactly one of the two `select` branches. -/
def SvcInv (s : LTState) (i : Nat) : Prop :=
  (s.startWgDone i = (s.go i).finished)
  ∧ ((s.go i).isSendingErr = true → s.startErrored i = true)
  ∧ (s.sup i = .selecting → s.stopCount i = 0 ∧ s.forwarded i = none)
  ∧ ((s.sup i).isSendingErrCh = true →
      s.stopCount i = 0 ∧ s.forwarded i = none ∧ s.go i = .done ∧ s.startErrored i = true)
  ∧ (s.sup i = .stopping → s.stopCount i = 1 ∧ s.forwarded i = none ∧ s.cancelled = true)
  ∧ (s.sup i = .waitingStart → s.stopCount i = 1 ∧ s.forwarded i = none ∧ s.cancelled = true)
  ∧ (s.sup i = .exited → s.go i = .done ∧
      (((s.forwarded i).isSome = true ∧ s.stopCount i = 0 ∧ s.startErrored i = true)
        ∨ (s.forwarded i = none ∧ s.stopCount i = 1 ∧ s.cancelled = true)))
  ∧ ((s.forwarded i).isSome = true → s.sup i = .exited)

/-- Global invariant: the `serviceWg` counter equals the number of
supervisory tasks still running, and every service satisfies `SvcInv`. -/
def Inv (s : LTState) : Prop :=
  s.wgCount = (nonExited s).card ∧ ∀ i, SvcInv s i

theorem stepNServices (s t : LTState) (h : Step s t) : t.nServices = s.nServices := by
  cases h <;> rfl

theorem stepCancelMono (s t : LTState) (h : Step s t) (hc : s.cancelled = true) :
    t.cancelled = true := by
  cases h <;> first | rfl | exact hc

theorem finishedEqDone (g : GoState) (h : g.finished = true) : g = .done := by
  cases g with
  | running => exact absurd h (by simp [GoState.finished])
  | sendingErr c => exact absurd h (by simp [GoState.finished])
  | done => rfl

theorem svcInvCongr (s t : LTState) (i : Nat)
    (hgo : t.go i = s.go i) (hsup : t.sup i = s.sup i)
    (hwg : t.startWgDone i = s.startWgDone i) (herr : t.startErrored i = s.startErrored i)
    (hsc : t.stopCount i = s.stopCount i) (hfw : t.forwarded i = s.forwarded i)
    (hca : s.cancelled = true → t.cancelled = true)
    (h : SvcInv s i) : SvcInv t i := by
  unfold SvcInv at h ⊢
  obtain ⟨o1, o2, o3, o4, o5, o6, o7, o8⟩ := h
  rw [hgo, hsup, hwg, herr, hsc, hfw]
  refine ⟨o1, o2, o3, o4, ?_, ?_, ?_, o8⟩
  · intro hx; obtain ⟨a, b, c⟩ := o5 hx; exact ⟨a, b, hca c⟩
  · intro hx; obtain ⟨a, b, c⟩ := o6 hx; exact ⟨a, b, hca c⟩
  · intro hx
    obtain ⟨a, b⟩ := o7 hx
    refine ⟨a, ?_⟩
    rcases b with ⟨x, y, z⟩ | ⟨x, y, z⟩
    · exact Or.inl ⟨x, y, z⟩
    · exact Or.inr ⟨x, y, hca z⟩

theorem nonExitedEq (s t : LTState) (hn : t.nServices = s.nServices)
    (hs : ∀ j, (t.sup j = SupState.exited) ↔ (s.sup j = SupState.exited)) :
    nonExited t = nonExited s := by
  unfold nonExited
  rw [hn]
  apply Finset.ext
  intro j
  simp only [Finset.mem_filter, Finset.mem_range]
  constructor
  · rintro ⟨hj, hne⟩; exact ⟨hj, fun hx => hne ((hs j).mpr hx)⟩
  · rintro ⟨hj, hne⟩; exact ⟨hj, fun hx => hne ((hs j).mp hx)⟩

theorem nonExitedErase (s t : LTState) (i : Nat) (hn : t.nServices = s.nServices)
    (hi : t.sup i = SupState.exited)
    (hs : ∀ j, j ≠ i → t.sup j = s.sup j)
    (hold : ¬ s.sup i = SupState.exited) :
    nonExited t = (nonExited s).erase i := by
  unfold nonExited
  rw [hn]
  apply Finset.ext
  intro j
  by_cases hj : j = i
  · subst hj
    simp [Finset.mem_filter, Finset.mem_erase, hi]
  · simp [Finset.mem_filter, Finset.mem_erase, hj, hs j hj]

theorem cardAfterExit (s t : LTState) (i : Nat) (hn : t.nServices = s.nServices)
    (hi : t.sup i = SupState.exited) (hs : ∀ j, j ≠ i → t.sup j = s.sup j)
    (hin : i < s.nServices) (hold : ¬ s.sup i = SupState.exited) :
    (nonExited t).card = (nonExited s).card - 1 := by
  rw [nonExitedErase s t i hn hi hs hold]
  exact Finset.card_erase_of_mem
    (Finset.mem_filter.mpr ⟨Finset.mem_range.mpr hin, hold⟩)

theorem invInit (n : Nat) : Inv (initState n) := by
  constructor
  · simp [initState, nonExited]
  · intro i
    unfold SvcInv
    simp [initState, GoState.finished, GoState.isSendingErr, SupState.isSendingErrCh]


theorem cntEq (s t : LTState) (hn : t.nServices = s.nServices)
    (hw : t.wgCount = s.wgCount)
    (hs : ∀ j, (t.sup j = SupState.exited) ↔ (s.sup j = SupState.exited))
    (h : s.wgCount = (nonExited s).card) : t.wgCount = (nonExited t).card := by
  rw [hw, nonExitedEq s t hn hs, h]

theorem cntExit (s t : LTState) (i : Nat) (hn : t.nServices = s.nServices)
    (hw : t.wgCount = s.wgCount - 1)
    (hi : t.sup i = SupState.exited) (hs : ∀ j, j ≠ i → t.sup j = s.sup j)
    (hin : i < s.nServices) (hold : ¬ s.sup i = SupState.exited)
    (h : s.wgCount = (nonExited s).card) : t.wgCount = (nonExited t).card := by
  rw [hw, cardAfterExit s t i hn hi hs hin hold, h]

theorem stepInv (s t : LTState) (hstep : Step s t) (h : Inv s) : Inv t := by
  obtain ⟨hcnt, hsvc⟩ := h
  cases hstep with
  | startRetNil i h1 h2 h3 =>
    refine ⟨hcnt, ?_⟩
    intro j
    by_cases hj : j = i
    · subst hj
      obtain ⟨o1, o2, o3, o4, o5, o6, o7, o8⟩ := hsvc j
      unfold SvcInv
      dsimp only
      refine ⟨?_, ?_, o3, ?_, o5, o6, ?_, o8⟩
      · rw [upd_self, upd_self]
        simp [GoState.finished]
      · intro hx
        rw [upd_self] at hx
        simp [GoState.isSendingErr] at hx
      · intro hx
        obtain ⟨a, b, _, d⟩ := o4 hx
        exact ⟨a, b, by rw [upd_self], d⟩
      · intro hx
        obtain ⟨_, d7⟩ := o7 hx
        exact ⟨by rw [upd_self], d7⟩
    · exact svcInvCongr s _ j (upd_ne _ _ _ _ hj) rfl (upd_ne _ _ _ _ hj) rfl rfl rfl
        (fun x => x) (hsvc j)
  | startRetErr i c h1 h2 h3 =>
    refine ⟨hcnt, ?_⟩
    intro j
    by_cases hj : j = i
    · subst hj
      obtain ⟨o1, o2, o3, o4, o5, o6, o7, o8⟩ := hsvc j
      unfold SvcInv
      dsimp only
      rw [h2] at o1
      refine ⟨?_, ?_, o3, ?_, o5, o6, ?_, o8⟩
      · rw [upd_self]
        simp only [GoState.finished] at o1 ⊢
        exact o1
      · intro _
        rw [upd_self]
      · intro hx
        obtain ⟨_, _, c4, _⟩ := o4 hx
        exfalso
        rw [h2] at c4
        exact GoState.noConfusion c4
      · intro hx
        obtain ⟨c7, _⟩ := o7 hx
        exfalso
        rw [h2] at c7
        exact GoState.noConfusion c7
    · exact svcInvCongr s _ j (upd_ne _ _ _ _ hj) rfl rfl (upd_ne _ _ _ _ hj) rfl rfl
        (fun x => x) (hsvc j)
  | supRecvStartErr i c h1 h2 h3 h4 =>
    refine ⟨cntEq s _ rfl rfl ?_ hcnt, ?_⟩
    · intro j
      dsimp only
      by_cases hj : j = i
      · subst hj
        rw [upd_self, h2]
        exact ⟨fun hx => (nomatch hx), fun hx => (nomatch hx)⟩
      · rw [upd_ne _ _ _ _ hj]
    intro j
    by_cases hj : j = i
    · subst hj
      obtain ⟨o1, o2, o3, o4, o5, o6, o7, o8⟩ := hsvc j
      obtain ⟨a3, b3⟩ := o3 h2
      have e2 : s.startErrored j = true := o2 (by rw [h3]; rfl)
      unfold SvcInv
      dsimp only
      refine ⟨?_, ?_, ?_, ?_, ?_, ?_, ?_, ?_⟩
      · rw [upd_self, upd_self]
        simp [GoState.finished]
      · intro hx
        rw [upd_self] at hx
        simp [GoState.isSendingErr] at hx
      · intro hx
        rw [upd_self] at hx
        exact nomatch hx
      · intro _
        exact ⟨a3, b3, by rw [upd_self], e2⟩
      · intro hx
        rw [upd_self] at hx
        exact nomatch hx
      · intro hx
        rw [upd_self] at hx
        exact nomatch hx
      · intro hx
        rw [upd_self] at hx
        exact nomatch hx
      · intro hx
        exfalso
        have hm := o8 hx
        rw [h2] at hm
        exact SupState.noConfusion hm
    · exact svcInvCongr s _ j (upd_ne _ _ _ _ hj) (upd_ne _ _ _ _ hj)
        (upd_ne _ _ _ _ hj) rfl rfl rfl (fun x => x) (hsvc j)
  | supSelectCancel i h1 h2 h3 h4 =>
    refine ⟨cntEq s _ rfl rfl ?_ hcnt, ?_⟩
    · intro j
      dsimp only
      by_cases hj : j = i
      · subst hj
        rw [upd_self, h2]
        exact ⟨fun hx => (nomatch hx), fun hx => (nomatch hx)⟩
      · rw [upd_ne _ _ _ _ hj]
    intro j
    by_cases hj : j = i
    · subst hj
      obtain ⟨o1, o2, o3, o4, o5, o6, o7, o8⟩ := hsvc j
      obtain ⟨a3, b3⟩ := o3 h2
      unfold SvcInv
      dsimp only
      refine ⟨o1, o2, ?_, ?_, ?_, ?_, ?_, ?_⟩
      · intro hx
        rw [upd_self] at hx
        exact nomatch hx
      · intro hx
        rw [upd_self] at hx
        simp [SupState.isSendingErrCh] at hx
      · intro _
        refine ⟨?_, b3, h3⟩
        rw [upd_self, a3]
      · intro hx
        rw [upd_self] at hx
        exact nomatch hx
      · intro hx
        rw [upd_self] at hx
        exact nomatch hx
      · intro hx
        exfalso
        have hm := o8 hx
        rw [h2] at hm
        exact SupState.noConfusion hm
    · exact svcInvCongr s _ j rfl (upd_ne _ _ _ _ hj) rfl rfl (upd_ne _ _ _ _ hj) rfl
        (fun x => x) (hsvc j)
  | stopReturns i h1 h2 h3 =>
    refine ⟨cntEq s _ rfl rfl ?_ hcnt, ?_⟩
    · intro j
      dsimp only
      by_cases hj : j = i
      · subst hj
        rw [upd_self, h2]
        exact ⟨fun hx => (nomatch hx), fun hx => (nomatch hx)⟩
      · rw [upd_ne _ _ _ _ hj]
    intro j
    by_cases hj : j = i
    · subst hj
      obtain ⟨o1, o2, o3, o4, o5, o6, o7, o8⟩ := hsvc j
      obtain ⟨a5, b5, c5⟩ := o5 h2
      unfold SvcInv
      dsimp only
      refine ⟨o1, o2, ?_, ?_, ?_, ?_, ?_, ?_⟩
      · intro hx
        rw [upd_self] at hx
        exact nomatch hx
      · intro hx
        rw [upd_self] at hx
        simp [SupState.isSendingErrCh] at hx
      · intro hx
        rw [upd_self] at hx
        exact nomatch hx
      · intro _
        exact ⟨a5, b5, c5⟩
      · intro hx
        rw [upd_self] at hx
        exact nomatch hx
      · intro hx
        exfalso
        have hm := o8 hx
        rw [h2] at hm
        exact SupState.noConfusion hm
    · exact svcInvCongr s _ j rfl (upd_ne _ _ _ _ hj) rfl rfl rfl rfl
        (fun x => x) (hsvc j)
  | supWaitStartRet i h1 h2 h3 h4 =>
    refine ⟨cntExit s _ i rfl rfl (upd_self _ _ _) (fun j hj => upd_ne _ _ _ _ hj) h1
      (by rw [h2]; exact fun hx => nomatch hx) hcnt, ?_⟩
    intro j
    by_cases hj : j = i
    · subst hj
      obtain ⟨o1, o2, o3, o4, o5, o6, o7, o8⟩ := hsvc j
      obtain ⟨a6, b6, c6⟩ := o6 h2
      have hdone : s.go j = .done := by
        apply finishedEqDone
        rw [← o1]
        exact h3
      unfold SvcInv
      dsimp only
      refine ⟨o1, o2, ?_, ?_, ?_, ?_, ?_, ?_⟩
      · intro hx
        rw [upd_self] at hx
        exact nomatch hx
      · intro hx
        rw [upd_self] at hx
        simp [SupState.isSendingErrCh] at hx
      · intro hx
        rw [upd_self] at hx
        exact nomatch hx
      · intro hx
        rw [upd_self] at hx
        exact nomatch hx
      · intro _
        exact ⟨hdone, Or.inr ⟨b6, a6, c6⟩⟩
      · intro _
        rw [upd_self]
    · exact svcInvCongr s _ j rfl (upd_ne _ _ _ _ hj) rfl rfl rfl rfl
        (fun x => x) (hsvc j)
  | dispRecvSup i c h1 h2 h3 h4 =>
    refine ⟨cntExit s _ i rfl rfl (upd_self _ _ _) (fun j hj => upd_ne _ _ _ _ hj) h1
      (by rw [h2]; exact fun hx => nomatch hx) hcnt, ?_⟩
    intro j
    by_cases hj : j = i
    · subst hj
      obtain ⟨o1, o2, o3, o4, o5, o6, o7, o8⟩ := hsvc j
      obtain ⟨a4, b4, c4, d4⟩ := o4 (by rw [h2]; rfl)
      unfold SvcInv
      dsimp only
      refine ⟨o1, o2, ?_, ?_, ?_, ?_, ?_, ?_⟩
      · intro hx
        rw [upd_self] at hx
        exact nomatch hx
      · intro hx
        rw [upd_self] at hx
        simp [SupState.isSendingErrCh] at hx
      · intro hx
        rw [upd_self] at hx
        exact nomatch hx
      · intro hx
        rw [upd_self] at hx
        exact nomatch hx
      · intro _
        refine ⟨c4, Or.inl ⟨?_, a4, d4⟩⟩
        rw [upd_self]
        rfl
      · intro _
        rw [upd_self]
    · exact svcInvCongr s _ j rfl (upd_ne _ _ _ _ hj) rfl rfl rfl (upd_ne _ _ _ _ hj)
        (fun x => x) (hsvc j)
  | dispRecvListener e h1 h2 h3 =>
    exact ⟨hcnt, fun j => svcInvCongr s _ j rfl rfl rfl rfl rfl rfl (fun x => x) (hsvc j)⟩
  | dispHandleImm h1 h2 =>
    exact ⟨hcnt, fun j => svcInvCongr s _ j rfl rfl rfl rfl rfl rfl (fun x => x) (hsvc j)⟩
  | dispHandleOther e h1 h2 h3 =>
    exact ⟨hcnt, fun j => svcInvCongr s _ j rfl rfl rfl rfl rfl rfl (fun _ => rfl) (hsvc j)⟩
  | dispRecvClosed h1 h2 h3 =>
    exact ⟨hcnt, fun j => svcInvCongr s _ j rfl rfl rfl rfl rfl rfl (fun _ => rfl) (hsvc j)⟩
  | shutdownCall h1 =>
    exact ⟨hcnt, fun j => svcInvCongr s _ j rfl rfl rfl rfl rfl rfl (fun _ => rfl) (hsvc j)⟩
  | signalArrive sig h1 h2 =>
    exact ⟨hcnt, fun j => svcInvCongr s _ j rfl rfl rfl rfl rfl rfl (fun x => x) (hsvc j)⟩
  | closeErrCh h1 =>
    exact ⟨hcnt, fun j => svcInvCongr s _ j rfl rfl rfl rfl rfl rfl (fun x => x) (hsvc j)⟩

theorem reachableInv (n : Nat) (s : LTState) (h : Reachable n s) : Inv s := by
  induction h with
  | refl => exact invInit n
  | tail _ hstep ih => exact stepInv _ _ hstep ih

theorem reachableNServices (n : Nat) (s : LTState) (h : Reachable n s) :
    s.nServices = n := by
  induction h with
  | refl => rfl
  | tail _ hstep ih => rw [stepNServices _ _ hstep, ih]

end Lifetime

namespace Lifetime

/-- Trace A, step 1: with one registered service, its `Start` returns the
error `7`; the start goroutine blocks on `startErrs <- err`. -/
def traceA1 : LTState :=
  { initState 1 with go := upd (initState 1).go 0 (.sendingErr 7),
                     startErrored := upd (initState 1).startErrored 0 true }

/-- Trace A, step 2: the supervisory `select` receives the startup error and
blocks on `lifetime.errCh <- startErr`. -/
def traceA2 : LTState :=
  { traceA1 with sup := upd traceA1.sup 0 (.sendingErrCh 7),
                 go := upd traceA1.go 0 .done,
                 startWgDone := upd traceA1.startWgDone 0 true }

/-- Trace A, step 3: the dispatcher accepts the startup error; the supervisory
task returns (its deferred `serviceWg.Done()` drops the counter to zero). -/
def traceA3 : LTState :=
  { traceA2 with sup := upd traceA2.sup 0 .exited, wgCount := traceA2.wgCount - 1,
                 forwarded := upd traceA2.forwarded 0 (some 7),
                 disp := .handling (.startupFailure 0 7) }

theorem stepA1 : Step (initState 1) traceA1 :=
  Step.startRetErr (initState 1) 0 7 (by decide) rfl rfl

theorem stepA2 : Step traceA1 traceA2 :=
  Step.supRecvStartErr traceA1 0 7 (by decide) rfl rfl rfl

theorem stepA3 : Step traceA2 traceA3 :=
  Step.dispRecvSup traceA2 0 7 (by decide) rfl rfl rfl

theorem reachA3 : Reachable 1 traceA3 :=
  Relation.ReflTransGen.tail
    (Relation.ReflTransGen.tail
      (Relation.ReflTransGen.tail Relation.ReflTransGen.refl stepA1) stepA2) stepA3

/-- Trace B, step 1: with one registered service, its `Start` returns nil
before any cancellation; the start goroutine finishes, nothing is sent on
`startErrs`, and the supervisory task stays in its `select`. -/
def traceB1 : LTState :=
  { initState 1 with go := upd (initState 1).go 0 .done,
                     startWgDone := upd (initState 1).startWgDone 0 true }

/-- Trace B, step 2: a shutdown is now requested. -/
def traceB2 : LTState :=
  { traceB1 with cancelled := true }

theorem stepB1 : Step (initState 1) traceB1 :=
  Step.startRetNil (initState 1) 0 (by decide) rfl rfl

theorem reachB1 : Reachable 1 traceB1 :=
  Relation.ReflTransGen.tail Relation.ReflTransGen.refl stepB1

/-- Trace C, step 1: with one registered service, `Shutdown()` is called. -/
def traceC1 : LTState :=
  { initState 1 with cancelled := true }

/-- Trace C, step 2: the supervisory `select` takes the `ctx.Done()` branch
and invokes `svc.Stop()`. -/
def traceC2 : LTState :=
  { traceC1 with sup := upd traceC1.sup 0 .stopping,
                 stopCount := upd traceC1.stopCount 0 (traceC1.stopCount 0 + 1) }

/-- Trace C, step 3: `svc.Stop()` returns; the supervisory task enters
`startWg.Wait()`. -/
def traceC3 : LTState :=
  { traceC2 with sup := upd traceC2.sup 0 .waitingStart }

/-- Trace C, step 4: only now does the service's `Start` return — with a
non-nil error (the `select` no longer listens on `startErrs`); the start
goroutine blocks forever on `startErrs <- err`. -/
def traceC4 : LTState :=
  { traceC3 with go := upd traceC3.go 0 (.sendingErr 7),
                 startErrored := upd traceC3.startErrored 0 true }

theorem stepC1 : Step (initState 1) traceC1 :=
  Step.shutdownCall (initState 1) rfl

theorem stepC2 : Step traceC1 traceC2 :=
  Step.supSelectCancel traceC1 0 (by decide) rfl rfl rfl

theorem stepC3 : Step traceC2 traceC3 :=
  Step.stopReturns traceC2 0 (by decide) rfl rfl

theorem stepC4 : Step traceC3 traceC4 :=
  Step.startRetErr traceC3 0 7 (by decide) rfl rfl

theorem reachC4 : Reachable 1 traceC4 :=
  Relation.ReflTransGen.tail
    (Relation.ReflTransGen.tail
      (Relation.ReflTransGen.tail
        (Relation.ReflTransGen.tail Relation.ReflTransGen.refl stepC1) stepC2) stepC3)
    stepC4

/-- The deadlocked configuration of trace C: the supervisory task is stuck in
`startWg.Wait()` and the start goroutine is stuck in `startErrs <- err`; no
step ever changes either again, the `serviceWg` counter stays at 1, and the
startup error never reaches the error channel. -/
def DeadFrozen (s : LTState) : Prop :=
  s.nServices = 1 ∧ s.sup 0 = SupState.waitingStart ∧ s.go 0 = GoState.sendingErr 7
  ∧ s.startWgDone 0 = false ∧ s.wgCount = 1 ∧ s.forwarded 0 = none

theorem deadFrozenStep (a b : LTState) (hstep : Step a b) (h : DeadFrozen a) :
    DeadFrozen b := by
  obtain ⟨hn, hsup, hgo, hwg, hcount, hfwd⟩ := h
  cases hstep with
  | startRetNil i h1 h2 h3 =>
    rw [hn] at h1
    have hi0 : i = 0 := Nat.lt_one_iff.mp h1
    subst hi0
    rw [hgo] at h2
    exact nomatch h2
  | startRetErr i c h1 h2 h3 =>
    rw [hn] at h1
    have hi0 : i = 0 := Nat.lt_one_iff.mp h1
    subst hi0
    rw [hgo] at h2
    exact nomatch h2
  | supRecvStartErr i c h1 h2 h3 h4 =>
    rw [hn] at h1
    have hi0 : i = 0 := Nat.lt_one_iff.mp h1
    subst hi0
    rw [hsup] at h2
    exact nomatch h2
  | supSelectCancel i h1 h2 h3 h4 =>
    rw [hn] at h1
    have hi0 : i = 0 := Nat.lt_one_iff.mp h1
    subst hi0
    rw [hsup] at h2
    exact nomatch h2
  | stopReturns i h1 h2 h3 =>
    rw [hn] at h1
    have hi0 : i = 0 := Nat.lt_one_iff.mp h1
    subst hi0
    rw [hsup] at h2
    exact nomatch h2
  | supWaitStartRet i h1 h2 h3 h4 =>
    rw [hn] at h1
    have hi0 : i = 0 := Nat.lt_one_iff.mp h1
    subst hi0
    rw [hwg] at h3
    exact nomatch h3
  | dispRecvSup i c h1 h2 h3 h4 =>
    rw [hn] at h1
    have hi0 : i = 0 := Nat.lt_one_iff.mp h1
    subst hi0
    rw [hsup] at h2
    exact nomatch h2
  | dispRecvListener e h1 h2 h3 => exact ⟨hn, hsup, hgo, hwg, hcount, hfwd⟩
  | dispHandleImm h1 h2 => exact ⟨hn, hsup, hgo, hwg, hcount, hfwd⟩
  | dispHandleOther e h1 h2 h3 => exact ⟨hn, hsup, hgo, hwg, hcount, hfwd⟩
  | dispRecvClosed h1 h2 h3 => exact ⟨hn, hsup, hgo, hwg, hcount, hfwd⟩
  | shutdownCall h1 => exact ⟨hn, hsup, hgo, hwg, hcount, hfwd⟩
  | signalArrive sig h1 h2 => exact ⟨hn, hsup, hgo, hwg, hcount, hfwd⟩
  | closeErrCh h1 => exact ⟨hn, hsup, hgo, hwg, hcount, hfwd⟩

theorem deadFrozenReach (s : LTState)
    (h : Relation.ReflTransGen Step traceC4 s) : DeadFrozen s := by
  induction h with
  | refl => exact ⟨rfl, rfl, rfl, rfl, rfl, rfl⟩
  | tail _ hstep ih => exact deadFrozenStep _ _ hstep ih

/-- In any reachable drained state (the `serviceWg` counter is zero), every
supervisory task has exited. -/
theorem drainedExited (n : Nat) (s : LTState) (h : Reachable n s)
    (hw : s.wgCount = 0) (i : Nat) (hi : i < n) : s.sup i = SupState.exited := by
  obtain ⟨hcnt, _⟩ := reachableInv n s h
  rw [hw] at hcnt
  have hempty : nonExited s = ∅ := Finset.card_eq_zero.mp hcnt.symm
  by_contra hne
  have hmem : i ∈ nonExited s := by
    apply Finset.mem_filter.mpr
    refine ⟨Finset.mem_range.mpr ?_, hne⟩
    rw [reachableNServices n s h]
    exact hi
  rw [hempty] at hmem
  exact absurd hmem (Finset.not_mem_empty i)

end Lifetime

namespace Lifetime

/-- C1, counterexample: with one registered service whose `Start` returns an
error, a state is reachable in which `Wait` has returned (the `serviceWg`
counter is zero) yet the service's `Stop` was never invoked — so `Wait` does
NOT return "only after every registered service's Stop has been invoked". -/
theorem C1_cex : Reachable 1 traceA3 ∧ waitReturned traceA3 ∧ traceA3.stopCount 0 = 0 :=
  ⟨reachA3, rfl, rfl⟩

/-- C1, amended: `Wait` returns only after every registered service's `Start`
call has returned and every registered service either had its startup error
forwarded into the error queue (in which case `Stop` is not invoked) or had
its `Stop` invoked exactly once. -/
theorem C1_amended (n : Nat) (s : LTState) (h : Reachable n s) (hw : waitReturned s)
    (i : Nat) (hi : i < n) :
    s.go i = GoState.done ∧ ((s.forwarded i).isSome = true ∨ s.stopCount i = 1) := by
  have hex := drainedExited n s h hw i hi
  obtain ⟨_, hsvc⟩ := reachableInv n s h
  obtain ⟨o1, o2, o3, o4, o5, o6, o7, o8⟩ := hsvc i
  obtain ⟨hdone, hdisj⟩ := o7 hex
  refine ⟨hdone, ?_⟩
  rcases hdisj with ⟨a, _, _⟩ | ⟨_, b, _⟩
  · exact Or.inl a
  · exact Or.inr b

theorem C1_amended_witness :
    traceA3.go 0 = GoState.done
    ∧ ((traceA3.forwarded 0).isSome = true ∨ traceA3.stopCount 0 = 1) :=
  C1_amended 1 traceA3 reachA3 rfl 0 (by decide)

/-- C2: per service, the supervisory task performs exactly one of
{forward the startup error, stop-and-wait} — never both, and an exited task
did one of the two; `Stop` is never invoked unless cancellation has been
triggered; and the supervisory task never exits while the service's `Start`
call is still in flight. -/
theorem C2_supervisor_protocol (n : Nat) (s : LTState) (h : Reachable n s) (i : Nat) :
    ¬((s.forwarded i).isSome = true ∧ 1 ≤ s.stopCount i)
    ∧ (s.sup i = SupState.exited →
        ((s.forwarded i).isSome = true ∧ s.stopCount i = 0)
        ∨ (s.forwarded i = none ∧ s.stopCount i = 1))
    ∧ (1 ≤ s.stopCount i → s.cancelled = true)
    ∧ (s.sup i = SupState.exited → s.go i = GoState.done) := by
  obtain ⟨_, hsvc⟩ := reachableInv n s h
  obtain ⟨o1, o2, o3, o4, o5, o6, o7, o8⟩ := hsvc i
  refine ⟨?_, ?_, ?_, fun hx => (o7 hx).1⟩
  · rintro ⟨hf, hs⟩
    have hex := o8 hf
    rcases (o7 hex).2 with ⟨_, z, _⟩ | ⟨y, _, _⟩
    · rw [z] at hs
      exact absurd hs (by omega)
    · rw [y] at hf
      simp at hf
  · intro hx
    rcases (o7 hx).2 with ⟨a, b, _⟩ | ⟨a, b, _⟩
    · exact Or.inl ⟨a, b⟩
    · exact Or.inr ⟨a, b⟩
  · intro hs
    cases hq : s.sup i with
    | selecting =>
      rw [(o3 hq).1] at hs
      exact absurd hs (by omega)
    | sendingErrCh c =>
      rw [(o4 (by rw [hq]; rfl)).1] at hs
      exact absurd hs (by omega)
    | stopping => exact (o5 hq).2.2
    | waitingStart => exact (o6 hq).2.2
    | exited =>
      rcases (o7 hq).2 with ⟨_, z, _⟩ | ⟨_, _, c2⟩
      · rw [z] at hs
        exact absurd hs (by omega)
      · exact c2

theorem C2_witness :
    ¬((traceA3.forwarded 0).isSome = true ∧ 1 ≤ traceA3.stopCount 0)
    ∧ (traceA3.sup 0 = SupState.exited →
        ((traceA3.forwarded 0).isSome = true ∧ traceA3.stopCount 0 = 0)
        ∨ (traceA3.forwarded 0 = none ∧ traceA3.stopCount 0 = 1))
    ∧ (1 ≤ traceA3.stopCount 0 → traceA3.cancelled = true)
    ∧ (traceA3.sup 0 = SupState.exited → traceA3.go 0 = GoState.done) :=
  C2_supervisor_protocol 1 traceA3 reachA3 0

/-- C3: if some service's startup error has been consumed by the dispatcher,
then no service's `Stop` is invoked more than once, and in the drained state
every other service either forwarded its own startup error or had `Stop`
invoked exactly once. -/
theorem C3_stop_exactly_once (n : Nat) (s : LTState) (j : Nat) (h : Reachable n s)
    (hj : j < n) (hf : (s.forwarded j).isSome = true) :
    (∀ i, i < n → s.stopCount i ≤ 1)
    ∧ (waitReturned s → ∀ i, i < n → i ≠ j →
        (s.forwarded i).isSome = true ∨ s.stopCount i = 1) := by
  obtain ⟨_, hsvc⟩ := reachableInv n s h
  constructor
  · intro i _
    obtain ⟨o1, o2, o3, o4, o5, o6, o7, o8⟩ := hsvc i
    cases hq : s.sup i with
    | selecting =>
      rw [(o3 hq).1]
      exact Nat.zero_le 1
    | sendingErrCh c =>
      rw [(o4 (by rw [hq]; rfl)).1]
      exact Nat.zero_le 1
    | stopping =>
      rw [(o5 hq).1]
    | waitingStart =>
      rw [(o6 hq).1]
    | exited =>
      rcases (o7 hq).2 with ⟨_, z, _⟩ | ⟨_, z, _⟩
      · rw [z]
        exact Nat.zero_le 1
      · rw [z]
  · intro hw i hi _
    have hex := drainedExited n s h hw i hi
    obtain ⟨o1, o2, o3, o4, o5, o6, o7, o8⟩ := hsvc i
    rcases (o7 hex).2 with ⟨a, _, _⟩ | ⟨_, b, _⟩
    · exact Or.inl a
    · exact Or.inr b

theorem C3_witness :
    (∀ i, i < 1 → traceA3.stopCount i ≤ 1)
    ∧ (waitReturned traceA3 → ∀ i, i < 1 → i ≠ 0 →
        (traceA3.forwarded i).isSome = true ∨ traceA3.stopCount i = 1) :=
  C3_stop_exactly_once 1 traceA3 0 reachA3 (by decide) rfl

/-- C4: the interleaving in which a concurrent shutdown request wins the
`select` and the service's `Start` then returns a non-nil error reaches a
deadlock: from `traceC4` on, in every reachable state the supervisory task is
still stuck in `startWg.Wait()`, the start goroutine is still stuck sending
the error, `Wait`'s counter stays at 1, and the startup error never reaches
the dispatcher — refuting "both eventually exit and no startup error is
lost". -/
theorem C4_deadlock :
    Reachable 1 traceC4
    ∧ (∀ s, Relation.ReflTransGen Step traceC4 s →
        s.sup 0 = SupState.waitingStart ∧ s.go 0 = GoState.sendingErr 7
        ∧ s.wgCount = 1 ∧ s.forwarded 0 = none) := by
  refine ⟨reachC4, ?_⟩
  intro s hs
  obtain ⟨_, h2, h3, _, h5, h6⟩ := deadFrozenReach s hs
  exact ⟨h2, h3, h5, h6⟩

theorem C4_deadlock_witness :
    traceC4.sup 0 = SupState.waitingStart ∧ traceC4.go 0 = GoState.sendingErr 7
    ∧ traceC4.wgCount = 1 ∧ traceC4.forwarded 0 = none :=
  C4_deadlock.2 traceC4 Relation.ReflTransGen.refl

end Lifetime

namespace Lifetime

theorem listenerRunGet (c : Nat) (sigs : List Sig) (i : Nat) :
    (listenerRun c sigs)[i]? = (sigs[i]?).map (fun sig =>
      (c + i + 1,
        if c + i + 1 > 1 ∨ sig = Sig.sigkill then Err.immediateShutdownSignalReceived
        else Err.shutdownSignalReceived)) := by
  induction sigs generalizing c i with
  | nil => simp [listenerRun]
  | cons sigh rest ih =>
    cases i with
    | zero =>
      simp [listenerRun, listenerStep]
    | succ k =>
      have harith : c + 1 + k + 1 = c + (k + 1) + 1 := by omega
      have hrec := ih (c + 1) k
      rw [harith] at hrec
      simpa [listenerRun, listenerStep] using hrec

/-- C5: in the event sequence emitted by the signal-listener loop, the k-th
received signal carries count k+1 (the count increases monotonically by one
per signal); the emitted event is the immediate-shutdown sentinel exactly for
repeat occurrences (position ≥ 1) and for `SIGKILL`; and if the first
received signal is `SIGINT` or `SIGTERM` its event is the graceful-shutdown
sentinel. -/
theorem C5_signal_events (sigs : List Sig) (i c : Nat) (e : Err)
    (h : (listenerRun 0 sigs)[i]? = some (c, e)) :
    c = i + 1
    ∧ (e = Err.immediateShutdownSignalReceived ↔ (1 ≤ i ∨ sigs[i]? = some Sig.sigkill))
    ∧ (i = 0 → (sigs[0]? = some Sig.sigint ∨ sigs[0]? = some Sig.sigterm) →
        e = Err.shutdownSignalReceived) := by
  rw [listenerRunGet] at h
  cases hs : sigs[i]? with
  | none =>
    rw [hs] at h
    simp at h
  | some sig =>
    rw [hs] at h
    have h2 : ((0 + i + 1 : Nat),
        (if 0 + i + 1 > 1 ∨ sig = Sig.sigkill then Err.immediateShutdownSignalReceived
         else Err.shutdownSignalReceived)) = (c, e) := Option.some.inj h
    injection h2 with hc he
    subst hc
    subst he
    refine ⟨by omega, ?_, ?_⟩
    · by_cases hcond : 0 + i + 1 > 1 ∨ sig = Sig.sigkill
      · rw [if_pos hcond]
        constructor
        · intro _
          rcases hcond with hgt | hk
          · exact Or.inl (by omega)
          · exact Or.inr (by rw [hk])
        · intro _
          rfl
      · rw [if_neg hcond]
        constructor
        · intro hx
          exact absurd hx (by decide)
        · intro hx
          exfalso
          apply hcond
          rcases hx with hgt | hk
          · exact Or.inl (by omega)
          · exact Or.inr (Option.some.inj hk)
    · intro hi0 hfirst
      subst hi0
      have hnk : sig ≠ Sig.sigkill := by
        rcases hfirst with hone | hone
        · rw [hs] at hone
          rw [Option.some.inj hone]
          exact fun hx => nomatch hx
        · rw [hs] at hone
          rw [Option.some.inj hone]
          exact fun hx => nomatch hx
      rw [if_neg ?_]
      rintro (hgt | hk)
      · omega
      · exact hnk hk

theorem C5_witness :
    (2 : Nat) = 1 + 1
    ∧ (Err.immediateShutdownSignalReceived = Err.immediateShutdownSignalReceived
        ↔ (1 ≤ 1 ∨ ([Sig.sigint, Sig.sigkill][1]? = some Sig.sigkill)))
    ∧ ((1 : Nat) = 0 →
        ([Sig.sigint, Sig.sigkill][0]? = some Sig.sigint
          ∨ [Sig.sigint, Sig.sigkill][0]? = some Sig.sigterm) →
        Err.immediateShutdownSignalReceived = Err.shutdownSignalReceived) :=
  C5_signal_events [Sig.sigint, Sig.sigkill] 1 2 Err.immediateShutdownSignalReceived rfl

/-- Concrete state in which the dispatcher has just consumed the
immediate-shutdown sentinel. -/
def handImmState : LTState :=
  { initState 0 with disp := DispState.handling Err.immediateShutdownSignalReceived }

/-- Concrete state in which the dispatcher has just consumed the graceful
sentinel. -/
def handGraceState : LTState :=
  { initState 0 with disp := DispState.handling Err.shutdownSignalReceived }

/-- C6: when the dispatcher has consumed an event, then: for the
immediate-shutdown sentinel it performs `os.Exit(1)` — the process terminates
with the non-zero status 1, the cancellation flag is left exactly as it was,
and no supervisory state or stop count is touched (no pending `Stop` is
waited for); for every other event it triggers the shared cancellation token
and keeps running (no process exit). -/
theorem C6_dispatcher_decision (s : LTState) (e : Err) (h1 : s.exitCode = none)
    (h2 : s.disp = DispState.handling e) :
    (e = Err.immediateShutdownSignalReceived →
      Step s { s with exitCode := some 1 }
      ∧ ({ s with exitCode := some 1 } : LTState).cancelled = s.cancelled
      ∧ ({ s with exitCode := some 1 } : LTState).sup = s.sup
      ∧ ({ s with exitCode := some 1 } : LTState).stopCount = s.stopCount
      ∧ (1 : Nat) ≠ 0)
    ∧ (e ≠ Err.immediateShutdownSignalReceived →
      Step s { s with cancelled := true, disp := DispState.waiting }
      ∧ ({ s with cancelled := true, disp := DispState.waiting } : LTState).exitCode
          = s.exitCode) := by
  constructor
  · intro he
    subst he
    exact ⟨Step.dispHandleImm s h2 h1, rfl, rfl, rfl, by omega⟩
  · intro hne
    exact ⟨Step.dispHandleOther s e h2 hne h1, rfl⟩

theorem C6_witness :
    Step handImmState { handImmState with exitCode := some 1 }
    ∧ Step handGraceState { handGraceState with cancelled := true, disp := DispState.waiting } :=
  ⟨((C6_dispatcher_decision handImmState Err.immediateShutdownSignalReceived rfl rfl).1 rfl).1,
   ((C6_dispatcher_decision handGraceState Err.shutdownSignalReceived rfl rfl).2 (by decide)).1⟩

theorem applyShutdownIter (m : Nat) (s : LTState) :
    applyShutdown^[m] (applyShutdown s) = applyShutdown s := by
  induction m with
  | zero => rfl
  | succ m ih =>
    rw [Function.iterate_succ_apply', ih]
    rfl

/-- C7: calling `Shutdown` k ≥ 1 times leaves the coordinator in exactly the
state of calling it once; after a call the token is triggered; no step of the
system ever un-triggers the token; and each `Shutdown` call is one step of
the system. -/
theorem C7_shutdown_idempotent (s : LTState) (k : Nat) (hk : 1 ≤ k) :
    applyShutdown^[k] s = applyShutdown s
    ∧ (applyShutdown s).cancelled = true
    ∧ (∀ a b, Step a b → a.cancelled = true → b.cancelled = true)
    ∧ (s.exitCode = none → Step s (applyShutdown s)) := by
  refine ⟨?_, rfl, fun a b hs hc => stepCancelMono a b hs hc,
    fun hx => Step.shutdownCall s hx⟩
  obtain ⟨m, rfl⟩ : ∃ m, k = m + 1 := ⟨k - 1, by omega⟩
  rw [Function.iterate_succ_apply]
  exact applyShutdownIter m s

theorem C7_witness :
    applyShutdown^[2] (initState 0) = applyShutdown (initState 0)
    ∧ (applyShutdown (initState 0)).cancelled = true
    ∧ (∀ a b, Step a b → a.cancelled = true → b.cancelled = true)
    ∧ ((initState 0).exitCode = none → Step (initState 0) (applyShutdown (initState 0))) :=
  C7_shutdown_idempotent (initState 0) 2 (by omega)

theorem dispReturnedAbsorbing (a b : LTState) (h : Step a b)
    (hd : a.disp = DispState.returned) : b.disp = DispState.returned := by
  cases h with
  | startRetNil i h1 h2 h3 => exact hd
  | startRetErr i c h1 h2 h3 => exact hd
  | supRecvStartErr i c h1 h2 h3 h4 => exact hd
  | supSelectCancel i h1 h2 h3 h4 => exact hd
  | stopReturns i h1 h2 h3 => exact hd
  | supWaitStartRet i h1 h2 h3 h4 => exact hd
  | dispRecvSup i c h1 h2 h3 h4 => exact nomatch hd.symm.trans h3
  | dispRecvListener e h1 h2 h3 => exact nomatch hd.symm.trans h1
  | dispHandleImm h1 h2 => exact nomatch hd.symm.trans h1
  | dispHandleOther e h1 h2 h3 => exact nomatch hd.symm.trans h1
  | dispRecvClosed h1 h2 h3 => exact nomatch hd.symm.trans h1
  | shutdownCall h1 => exact hd
  | signalArrive sig h1 h2 => exact hd
  | closeErrCh h1 => exact hd

/-- Concrete state with the error channel closed and the dispatcher at its
receive. -/
def closedQueueState : LTState := { initState 0 with errChClosed := true }

/-- C8: when the error queue is closed and the dispatcher is at its receive,
it steps to a state in which the shared cancellation token is triggered and
its loop has returned; and once returned, no step of the system ever moves
the dispatcher again. -/
theorem C8_closed_queue (s : LTState) (h1 : s.exitCode = none)
    (h2 : s.disp = DispState.waiting) (h3 : s.errChClosed = true) :
    Step s { s with cancelled := true, disp := DispState.returned }
    ∧ ({ s with cancelled := true, disp := DispState.returned } : LTState).cancelled = true
    ∧ (∀ a b, Step a b → a.disp = DispState.returned → b.disp = DispState.returned) :=
  ⟨Step.dispRecvClosed s h2 h3 h1, rfl, fun a b hs hd => dispReturnedAbsorbing a b hs hd⟩

theorem C8_witness :
    Step closedQueueState { closedQueueState with cancelled := true, disp := DispState.returned }
    ∧ ({ closedQueueState with cancelled := true, disp := DispState.returned } : LTState).cancelled = true
    ∧ (∀ a b, Step a b → a.disp = DispState.returned → b.disp = DispState.returned) :=
  C8_closed_queue closedQueueState rfl rfl rfl

/-- C10: a service whose `Start` returned nil with no startup error and no
cancellation yet has its supervisory task still blocked in the `select`, its
`Stop` not invoked, and `Wait` unable to return; and from any state where
such a task is selecting after cancellation, invoking `Stop` is the enabled
`select` step even though `Start` has already returned. -/
theorem C10_clean_start :
    (∀ n s i, Reachable n s → i < n → s.cancelled = false → s.go i = GoState.done →
      s.startErrored i = false →
      s.sup i = SupState.selecting ∧ s.stopCount i = 0 ∧ ¬ waitReturned s)
    ∧ (∀ (s : LTState) (i : Nat), i < s.nServices → s.exitCode = none →
      s.sup i = SupState.selecting → s.cancelled = true → s.go i = GoState.done →
      Step s { s with sup := upd s.sup i SupState.stopping,
                      stopCount := upd s.stopCount i (s.stopCount i + 1) }) := by
  constructor
  · intro n s i h hi hcan hgo herr
    obtain ⟨hcnt, hsvc⟩ := reachableInv n s h
    obtain ⟨o1, o2, o3, o4, o5, o6, o7, o8⟩ := hsvc i
    have hsel : s.sup i = SupState.selecting := by
      cases hq : s.sup i with
      | selecting => rfl
      | sendingErrCh code =>
        have hz := (o4 (by rw [hq]; rfl)).2.2.2
        rw [herr] at hz
        exact nomatch hz
      | stopping =>
        have hz := (o5 hq).2.2
        rw [hcan] at hz
        exact nomatch hz
      | waitingStart =>
        have hz := (o6 hq).2.2
        rw [hcan] at hz
        exact nomatch hz
      | exited =>
        rcases (o7 hq).2 with ⟨_, _, hz⟩ | ⟨_, _, hz⟩
        · rw [herr] at hz
          exact nomatch hz
        · rw [hcan] at hz
          exact nomatch hz
    refine ⟨hsel, (o3 hsel).1, ?_⟩
    intro hw
    have hw0 : s.wgCount = 0 := hw
    have hmem : i ∈ nonExited s := by
      apply Finset.mem_filter.mpr
      constructor
      · apply Finset.mem_range.mpr
        rw [reachableNServices n s h]
        exact hi
      · rw [hsel]
        exact fun hx => nomatch hx
    have hpos : 0 < (nonExited s).card := Finset.card_pos.mpr ⟨i, hmem⟩
    rw [hw0] at hcnt
    exact absurd hcnt.symm (Nat.ne_of_gt hpos)
  · intro s i hi hx hsel hcan hgo
    exact Step.supSelectCancel s i hi hsel hcan hx

theorem C10_witness :
    (traceB1.sup 0 = SupState.selecting ∧ traceB1.stopCount 0 = 0 ∧ ¬ waitReturned traceB1)
    ∧ Step traceB2 { traceB2 with sup := upd traceB2.sup 0 SupState.stopping, stopCount := upd traceB2.stopCount 0 (traceB2.stopCount 0 + 1) } :=
  ⟨C10_clean_start.1 1 traceB1 0 reachB1 (by decide) rfl rfl rfl,
   C10_clean_start.2 traceB2 0 (by decide) rfl rfl rfl rfl⟩

end Lifetime

namespace Adapters

/-- C9: the HTTP adapter's `Start` translates a nil result and the
`http.ErrServerClosed` result of `ListenAndServe` into a nil return and
returns any other error unchanged; the gRPC adapter's `Start` returns the
wrapped error whenever binding the listen address fails, translates a nil
result and `grpc.ErrServerStopped` from `Serve` into a nil return, and
returns any other serve error unchanged. -/
theorem C9_error_translation :
    (httpServiceStart none = none)
    ∧ (httpServiceStart (some HTTPErr.serverClosed) = none)
    ∧ (∀ c : Nat, httpServiceStart (some (HTTPErr.other c)) = some (HTTPErr.other c))
    ∧ (∀ (lc : Nat) (sr : Option GRPCErr),
        grpcServiceStart (some lc) sr = some (GRPCErr.listenFailed lc))
    ∧ (grpcServiceStart none none = none)
    ∧ (grpcServiceStart none (some GRPCErr.serverStopped) = none)
    ∧ (∀ c : Nat, grpcServiceStart none (some (GRPCErr.other c)) = some (GRPCErr.other c)) :=
  ⟨rfl, rfl, fun _ => rfl, fun _ _ => rfl, rfl, rfl, fun _ => rfl⟩

end Adapters
